import Mathlib

/- Verification of the ADB reverse proxy (server.py).

   Shallow embedding: byte strings are List Nat (each element < 256),
   machine integers are Nat with explicit % 2^32 where overflow matters,
   fallible code returns Option / Except, and the concurrent pieces
   (the per-stream sink task of ProxyChannel and the dispatch loop of
   AdbDeviceProxy.run) are explicit transition systems whose actions are
   the suspension points of the Python coroutines. -/

/-- Little-endian 4-byte encoding of a u32, as struct.pack of one "<I" field. -/
def le32 (n : Nat) : List Nat :=
  [n % 256, n / 256 % 256, n / 65536 % 256, n / 16777216 % 256]

/-- struct.unpack of one "<I" field on a 4-byte buffer (0 on wrong length;
never hit with wrong length in this development). -/
def leU32 : List Nat → Nat
  | [b0, b1, b2, b3] => b0 + 256 * b1 + 65536 * b2 + 16777216 * b3
  | _ => 0

/-- One shift-xor round of the bitwise IEEE CRC-32. -/
def crcRound (c : Nat) : Nat := if c % 2 = 1 then c / 2 ^^^ 0xEDB88320 else c / 2

/-- Iterated CRC-32 rounds. -/
def crcRounds : Nat → Nat → Nat
  | 0, c => c
  | k + 1, c => crcRounds k (crcRound c)

/-- Fold one byte into a CRC-32 accumulator. -/
def crc32Byte (c b : Nat) : Nat := crcRounds 8 (c ^^^ b)

/-- binascii.crc32 over a byte list (IEEE CRC-32). -/
def crc32 (data : List Nat) : Nat := data.foldl crc32Byte 0xFFFFFFFF ^^^ 0xFFFFFFFF

/-- reader.readexactly n over a byte list: n bytes off the front paired with
the rest, or none when the stream is too short (IncompleteReadError). -/
def readExactly (n : Nat) (s : List Nat) : Option (List Nat × List Nat) :=
  if n ≤ s.length then some (s.take n, s.drop n) else none

/-- The proxy's advertised max payload: self.max_data_len = 256 * 1024. -/
def MAX_PAYLOAD : Nat := 262144

/-- send_cmd (server.py lines 9-15): the emitted bytes are the 24-byte header
struct.pack "<IIIIII" (cmd_id, arg0, arg1, len(data), crc32(data),
cmd_id XOR 0xFFFFFFFF) followed by the payload. cmd is the 4-byte tag. -/
def send_cmd (cmd : List Nat) (arg0 arg1 : Nat) (data : List Nat) : List Nat :=
  le32 (leU32 cmd) ++ le32 arg0 ++ le32 arg1 ++ le32 data.length ++
    le32 (crc32 data) ++ le32 (leU32 cmd ^^^ 0xFFFFFFFF) ++ data

/-- recv_cmd (server.py lines 17-23): readexactly(24) and header unpacking is
modelled as six exact reads of 4 bytes (the same consumed prefix and the same
six fields); the magic check rejects with none (raise), the CRC field is read
but not validated, then exactly data_len payload bytes are read. Returns
((header[:4], arg0, arg1, data), rest-of-stream). -/
def recv_cmd (s : List Nat) : Option ((List Nat × Nat × Nat × List Nat) × List Nat) :=
  match readExactly 4 s with
  | none => none
  | some (cmdB, s1) =>
    match readExactly 4 s1 with
    | none => none
    | some (a0B, s2) =>
      match readExactly 4 s2 with
      | none => none
      | some (a1B, s3) =>
        match readExactly 4 s3 with
        | none => none
        | some (lenB, s4) =>
          match readExactly 4 s4 with
          | none => none
          | some (_crcB, s5) =>
            match readExactly 4 s5 with
            | none => none
            | some (magicB, s6) =>
              if leU32 cmdB = leU32 magicB ^^^ 0xFFFFFFFF then
                match readExactly (leU32 lenB) s6 with
                | none => none
                | some (data, rest) => some ((cmdB, leU32 a0B, leU32 a1B, data), rest)
              else none

/-- ASCII bytes of the four-byte tag "OPEN". -/
def OPENb : List Nat := [79, 80, 69, 78]

/-- ASCII bytes of the four-byte tag "WRTE". -/
def WRTEb : List Nat := [87, 82, 84, 69]

/-- ASCII bytes of the four-byte tag "OKAY". -/
def OKAYb : List Nat := [79, 75, 65, 89]

/-- ASCII bytes of the four-byte tag "CLSE". -/
def CLSEb : List Nat := [67, 76, 83, 69]

/-- ASCII bytes of the four-byte tag "CNXN". -/
def CNXNb : List Nat := [67, 78, 88, 78]

/-- One ADB frame as handed to send_cmd: tag bytes, the two u32 arguments and
the payload. -/
structure Frame where
  cmd : List Nat
  a0 : Nat
  a1 : Nat
  data : List Nat
  deriving DecidableEq

/-- Outcomes raised out of open_client_stream (server.py lines 97-119).
ioErr is an uncaught IncompleteReadError from a status read; failedMsg is the
exception the inner raise on line 114 constructs (carrying the diagnostic
text read from the server); failedToOpen is the exception raised by the bare
except on line 117, carrying only the destination string. -/
inductive OErr
  | ioErr
  | failedMsg (msg : List Nat)
  | failedToOpen (dest : List Nat)
  deriving DecidableEq

/-- Value of one ASCII hex digit, as accepted by int(.., 16). -/
def hexDigit (c : Nat) : Option Nat :=
  if 48 ≤ c ∧ c ≤ 57 then some (c - 48)
  else if 97 ≤ c ∧ c ≤ 102 then some (c - 87)
  else if 65 ≤ c ∧ c ≤ 70 then some (c - 55)
  else none

/-- int(len_b, 16) on a 4-byte buffer; none models the ValueError on
non-hex input (and the wrong-length case, unreachable after readexactly 4). -/
def parseHex4 : List Nat → Option Nat
  | [c0, c1, c2, c3] => do
    let d0 ← hexDigit c0
    let d1 ← hexDigit c1
    let d2 ← hexDigit c2
    let d3 ← hexDigit c3
    pure (((d0 * 16 + d1) * 16 + d2) * 16 + d3)
  | _ => none

/-- One request/response phase of open_client_stream (server.py lines
101-117), reading from the host-ADB reply stream inp. The request write is
not modelled (replies are provided in inp). On a non-OKAY status the code
enters a try block that reads a 4-hex-digit length and that many diagnostic
bytes and then raises Failed-with-message (line 114); that raise, like any
short read or int() failure before it, is intercepted by the bare except on
line 115, which re-raises the generic Failed-to-open error naming the
destination. The try block's outcome (_attempted) is therefore dead. -/
def phaseRead (inp : List Nat) (dest : List Nat) : Except OErr (List Nat) :=
  match readExactly 4 inp with
  | none => .error .ioErr
  | some (status, rest) =>
    if status = OKAYb then .ok rest
    else
      let _attempted : Except Unit OErr :=
        match readExactly 4 rest with
        | none => .error ()
        | some (lenB, rest2) =>
          match parseHex4 lenB with
          | none => .error ()
          | some n =>
            match readExactly n rest2 with
            | none => .error ()
            | some (msg, _) => .ok (OErr.failedMsg msg)
      .error (.failedToOpen dest)

/-- open_client_stream (server.py lines 97-119): two phases, the
host:transport:(device_id) request then the destination service request;
both phases report failure with the same destination string (the f-string on
line 117 always interpolates the destination argument). On success returns
the remaining raw byte stream. devId only shapes the written request, which
is not modelled. -/
def open_client_stream (inp _devId dest : List Nat) : Except OErr (List Nat) :=
  match phaseRead inp dest with
  | .error e => .error e
  | .ok rest =>
    match phaseRead rest dest with
    | .error e => .error e
    | .ok rest2 => .ok rest2

/-- Whether an open_client_stream outcome is an error carrying the diagnostic
message read from the host ADB server. -/
def carriesDiag : Except OErr (List Nat) → Bool
  | .error (.failedMsg _) => true
  | _ => false

/-- ASCII bytes of the string "shell:". -/
def shellB : List Nat := [115, 104, 101, 108, 108, 58]

/-- Byte-list version of str.startswith for the ASCII pattern "shell:"
(UTF-8 string comparison and byte comparison agree on an ASCII pattern). -/
def bytesStartsWith : List Nat → List Nat → Bool
  | [], _ => true
  | _ :: _, [] => false
  | p :: ps, b :: bs => p == b && bytesStartsWith ps bs

/-- Position of the sink coroutine of one ProxyChannel (server.py lines
53-81): waiting is the top of the while loop / blocked in acquire, ready is
past the post-acquire closed check and about to read, done is the task
finished. -/
inductive Pump
  | waiting
  | ready
  | done
  deriving DecidableEq

/-- State of one ProxyChannel together with the counters the flow-control
claims are about. credit is the value of the ready_to_send semaphore; sent
counts WRTE frames the sink has emitted; okays counts inbound OKAY frames
the dispatch loop has routed to this channel (each calls channel.ready());
clse counts CLSE frames emitted for this channel; slept counts the 100 ms
shell-EOF pauses. -/
structure ChannelSt where
  name : List Nat
  closed : Bool
  credit : Nat
  pump : Pump
  sent : Nat
  okays : Nat
  clse : Nat
  slept : Nat
  deriving DecidableEq

/-- The interleaved events of one channel's execution: the sink task's own
steps plus the dispatch-loop events that touch the channel. -/
inductive ChanAct
  /-- Sink, not closed: acquire one unit of ready_to_send (line 57) and pass
  the post-acquire closed check (line 58). -/
  | acquire
  /-- Sink: acquire completes but close() ran meanwhile, so the post-acquire
  closed check breaks out of the loop (lines 57-59). -/
  | acquireClosed
  /-- Sink: the while-loop guard (line 56) observes closed and exits. -/
  | exitTop
  /-- Sink: reader.read returns nonempty data; emit WRTE (lines 62-73). -/
  | readData
  /-- Sink: reader.read returns 0 bytes on a shell: channel; sleep 0.1 s and
  continue back to the top of the loop (lines 63-70). -/
  | readEofShell
  /-- Sink: reader.read returns 0 bytes on a non-shell channel; break, then
  the finally block closes the channel if it is not closed (lines 63-81). -/
  | readEofOther
  /-- Sink: reader.read raises; break, then the finally block closes the
  channel if it is not closed (lines 74-81). -/
  | readErr
  /-- Dispatch loop: an inbound OKAY addressed to this channel's remote_id
  calls channel.ready(), releasing one credit (lines 181-185). -/
  | inOkay
  /-- Dispatch loop or write path: channel.close() (lines 83-95) on a channel
  not yet closed: sets closed, releases one credit, emits CLSE. -/
  | close
  /-- The sink task observes the cancellation requested by close(). -/
  | cancelled
  deriving DecidableEq

/-- Effect of the sink's finally block (lines 79-81): if the channel is not
closed, close() runs (sets closed, releases ready_to_send once, emits CLSE);
the sink task then finishes. -/
def doFinallyClose (s : ChannelSt) : ChannelSt :=
  if s.closed then { s with pump := Pump.done }
  else { s with pump := Pump.done, closed := true, credit := s.credit + 1, clse := s.clse + 1 }

/-- One step of the channel transition system; none when the action is not
enabled in the given state (for acquire, in particular, when the semaphore
is 0 and the sink stays blocked). -/
def channelStep (s : ChannelSt) : ChanAct → Option ChannelSt
  | ChanAct.acquire =>
    if s.pump = Pump.waiting ∧ s.closed = false ∧ 0 < s.credit then
      some { s with credit := s.credit - 1, pump := Pump.ready }
    else none
  | ChanAct.acquireClosed =>
    if s.pump = Pump.waiting ∧ s.closed = true ∧ 0 < s.credit then
      some { s with credit := s.credit - 1, pump := Pump.done }
    else none
  | ChanAct.exitTop =>
    if s.pump = Pump.waiting ∧ s.closed = true then
      some { s with pump := Pump.done }
    else none
  | ChanAct.readData =>
    if s.pump = Pump.ready then
      some { s with sent := s.sent + 1, pump := Pump.waiting }
    else none
  | ChanAct.readEofShell =>
    if s.pump = Pump.ready ∧ bytesStartsWith shellB s.name = true then
      some { s with slept := s.slept + 1, pump := Pump.waiting }
    else none
  | ChanAct.readEofOther =>
    if s.pump = Pump.ready ∧ bytesStartsWith shellB s.name = false then
      some (doFinallyClose s)
    else none
  | ChanAct.readErr =>
    if s.pump = Pump.ready then some (doFinallyClose s) else none
  | ChanAct.inOkay =>
    some { s with credit := s.credit + 1, okays := s.okays + 1 }
  | ChanAct.close =>
    if s.closed = false then
      some { s with closed := true, credit := s.credit + 1, clse := s.clse + 1 }
    else none
  | ChanAct.cancelled =>
    if s.closed = true ∧ ¬s.pump = Pump.done then
      some { s with pump := Pump.done }
    else none

/-- ProxyChannel.__init__ (lines 26-37): Semaphore(0) followed by the one
starter self.ready() call, sink task started at the top of its loop. -/
def channelInit (name : List Nat) : ChannelSt :=
  { name := name, closed := false, credit := 1, pump := Pump.waiting,
    sent := 0, okays := 0, clse := 0, slept := 0 }

/-- Run a sequence of channel actions; none as soon as one is not enabled. -/
def channelRun (s : ChannelSt) : List ChanAct → Option ChannelSt
  | [] => some s
  | a :: rest =>
    match channelStep s a with
    | none => none
    | some s' => channelRun s' rest

/-- 1 when the sink holds an acquired-but-unspent credit, else 0. -/
def hold (s : ChannelSt) : Nat := if s.pump = Pump.ready then 1 else 0

/-- 1 when the channel is closed (close() has performed its one extra
semaphore release), else 0. -/
def cBit (s : ChannelSt) : Nat := if s.closed then 1 else 0

/-- Inductive invariant of the channel system: the semaphore value, the
held-credit bit and the emitted-WRTE count are covered by the starter unit,
the inbound OKAYs and close()'s single release; once closed, a held credit
and the emitted WRTEs alone are covered by the starter unit and the OKAYs. -/
def chanInv (s : ChannelSt) : Prop :=
  s.credit + hold s + s.sent ≤ 1 + s.okays + cBit s ∧
  (s.closed = true → hold s + s.sent ≤ 1 + s.okays)

/-- Errors that can escape ProxyChannel.close: only a failure of the final
send_cmd CLSE on the peer link (line 95), which sits outside the try/except. -/
inductive CloseErr
  | sendErr
  deriving DecidableEq

/-- Environment choices for one run of ProxyChannel.close: whether closing
the outbound writer raises (lines 91-92) and whether emitting CLSE on the
peer link raises (line 95). -/
structure CloseEnv where
  writerCloseFails : Bool
  sendClseFails : Bool
  deriving DecidableEq

/-- The ProxyChannel fields that close (lines 83-95) touches. credit is the
ready_to_send semaphore value; sinkDone is self.sink_task.done(). -/
structure CloseSt where
  closed : Bool
  credit : Nat
  sinkDone : Bool
  sinkCancelled : Bool
  writerClosed : Bool
  deriving DecidableEq

/-- ProxyChannel.close (server.py lines 83-95): on an already-closed channel
it is a no-op. Otherwise it sets closed, releases ready_to_send once,
cancels the sink task when not done, closes the outbound writer with any
error swallowed by the bare except (lines 90-94), and finally emits
CLSE(remote_id, local_id) via send_cmd, which is outside the try/except, so
a failure there escapes close. Returns (state, frames emitted, error). -/
def closeChannel (remoteId localId : Nat) (s : CloseSt) (env : CloseEnv) :
    CloseSt × List Frame × Option CloseErr :=
  if s.closed then (s, [], none)
  else
    let s1 : CloseSt := { s with closed := true, credit := s.credit + 1 }
    let s2 : CloseSt := if s1.sinkDone then s1 else { s1 with sinkCancelled := true }
    let s3 : CloseSt := if env.writerCloseFails then s2 else { s2 with writerClosed := true }
    if env.sendClseFails then (s3, [], some CloseErr.sendErr)
    else (s3, [⟨CLSEb, remoteId, localId, []⟩], none)

/-- One stream table entry of AdbDeviceProxy: the ProxyChannel's name (the
destination string bytes), the peer's local_id, and whether our side has
closed it (with pumpCancelled mirroring the sink_task.cancel() in close). -/
structure StreamEnt where
  name : List Nat
  localId : Nat
  closed : Bool
  pumpCancelled : Bool
  deriving DecidableEq

/-- dict.get on the stream table (first binding of the key). -/
def lookupS (k : Nat) : List (Nat × StreamEnt) → Option StreamEnt
  | [] => none
  | (k', v) :: rest => if k' = k then some v else lookupS k rest

/-- dict assignment: replace the first binding of the key, or append. -/
def updateS (k : Nat) (v : StreamEnt) : List (Nat × StreamEnt) → List (Nat × StreamEnt)
  | [] => [(k, v)]
  | (k', v') :: rest =>
    if k' = k then (k, v) :: rest else (k', v') :: updateS k v rest

/-- del on the stream table: remove the first binding of the key. -/
def eraseS (k : Nat) : List (Nat × StreamEnt) → List (Nat × StreamEnt)
  | [] => []
  | (k', v') :: rest => if k' = k then rest else (k', v') :: eraseS k rest

/-- bytes.rstrip of NUL: drop trailing zero bytes. -/
def rstripNul (l : List Nat) : List Nat := (l.reverse.dropWhile (· == 0)).reverse

/-- AdbDeviceProxy dispatch-loop state: the stream table, the next remote id
to allocate, the frames emitted on the peer link (in order), the ghost list
of remote ids allocated at OPEN frames, and whether handle_connection has
closed the peer writer. -/
structure PSt where
  streams : List (Nat × StreamEnt)
  nextRemoteId : Nat
  out : List Frame
  assigned : List Nat
  peerClosed : Bool
  deriving DecidableEq

/-- One inbound frame after recv_cmd (so its magic already matched), plus
the environment's choice env: for OPEN, whether open_client_stream succeeds;
for WRTE, whether the outbound write succeeds. -/
inductive Ev
  | frame (cmd : List Nat) (a0 a1 : Nat) (data : List Nat) (env : Bool)
  deriving DecidableEq

/-- AdbDeviceProxy state after __init__ (lines 135-145). -/
def proxyInit : PSt :=
  { streams := [], nextRemoteId := 1, out := [], assigned := [], peerClosed := false }

/-- One iteration of the dispatch loop of AdbDeviceProxy.run (server.py
lines 160-195) on one decoded inbound frame. OPEN allocates
rid = next_remote_id and increments it before trying the outbound service:
on success it inserts the channel and emits OKAY(rid, a0), on failure it
emits CLSE(a0, 0). WRTE routes by a1 = our remote_id: a successful write
emits OKAY(a1, local_id); a failed write runs channel.close() (mark closed,
cancel pump, emit CLSE) but leaves the table entry in place. OKAY routes to
channel.ready(), which only touches the channel's semaphore (see
channelStep). CLSE on a known id closes the channel and deletes the entry;
on an unknown id it replies CLSE(a0, 0). Any other tag falls through all
four branches with no effect. Peer-link sends are assumed not to raise at
this level. -/
def proxyStep (s : PSt) : Ev → PSt
  | Ev.frame cmd a0 a1 data env =>
    if cmd = OPENb then
      let rid := s.nextRemoteId
      let s' : PSt := { s with nextRemoteId := rid + 1, assigned := s.assigned ++ [rid] }
      if env then
        { s' with
          streams := updateS rid ⟨rstripNul data, a0, false, false⟩ s'.streams,
          out := s'.out ++ [⟨OKAYb, rid, a0, []⟩] }
      else { s' with out := s'.out ++ [⟨CLSEb, a0, 0, []⟩] }
    else if cmd = WRTEb then
      match lookupS a1 s.streams with
      | some ent =>
        if env then { s with out := s.out ++ [⟨OKAYb, a1, ent.localId, []⟩] }
        else
          if ent.closed then s
          else
            { s with
              streams := updateS a1 { ent with closed := true, pumpCancelled := true } s.streams,
              out := s.out ++ [⟨CLSEb, a1, ent.localId, []⟩] }
      | none => s
    else if cmd = OKAYb then
      s
    else if cmd = CLSEb then
      match lookupS a1 s.streams with
      | some ent =>
        let s' : PSt :=
          if ent.closed then s
          else
            { s with
              streams := updateS a1 { ent with closed := true, pumpCancelled := true } s.streams,
              out := s.out ++ [⟨CLSEb, a1, ent.localId, []⟩] }
        { s' with streams := eraseS a1 s'.streams }
      | none => { s with out := s.out ++ [⟨CLSEb, a0, 0, []⟩] }
    else s

/-- The dispatch loop over a sequence of decoded inbound frames. -/
def proxyRun (s : PSt) : List Ev → PSt
  | [] => s
  | e :: rest => proxyRun (proxyStep s e) rest

/-- Number of OPEN frames in an event sequence. -/
def countOpens : List Ev → Nat
  | [] => 0
  | Ev.frame cmd _ _ _ _ :: rest => (if cmd = OPENb then 1 else 0) + countOpens rest

/-- The CNXN reply of AdbDeviceProxy.run line 159: protocol version
0x01000000, max payload 262144, banner bytes of
device::proxy_(device id) followed by NUL. -/
def cnxnReply (deviceId : List Nat) : Frame :=
  ⟨CNXNb, 0x01000000, MAX_PAYLOAD,
    [100, 101, 118, 105, 99, 101, 58, 58, 112, 114, 111, 120, 121, 95] ++ deviceId ++ [0]⟩

/-- handle_connection (server.py lines 197-204) around AdbDeviceProxy.run
(lines 153-195), driven by the decoded inbound frames evs followed by peer
EOF. If the first frame is not CNXN, run raises before replying; otherwise
run replies CNXN and dispatches the remaining frames; when evs is exhausted
the next recv_cmd hits EOF and raises. In every case the exception lands in
handle_connection's except/finally, which only logs and closes the peer
writer: nothing else in the state is touched. -/
def handle_connection (deviceId : List Nat) (evs : List Ev) : PSt :=
  let runOut : PSt :=
    match evs with
    | Ev.frame cmd _ _ _ _ :: rest =>
      if cmd = CNXNb then proxyRun { proxyInit with out := [cnxnReply deviceId] } rest
      else proxyInit
    | [] => proxyInit
  { runOut with peerClosed := true }

/-- ASCII bytes of "shell:ls". -/
def shellLsB : List Nat := [115, 104, 101, 108, 108, 58, 108, 115]

/-- ASCII bytes of a one-letter device id. -/
def devIdB : List Nat := [100]

/-- A dispatch state holding one open stream with remote_id 1 and peer
local_id 7 (as after a successful OPEN). -/
def oneStreamSt : PSt :=
  { streams := [(1, ⟨shellLsB, 7, false, false⟩)], nextRemoteId := 2,
    out := [], assigned := [1], peerClosed := false }

/-- The final state of a device proxy whose peer performed the CNXN
handshake, opened shell:ls successfully as local_id 7, and then closed the
TCP connection (peer EOF). -/
def termExample : PSt :=
  handle_connection devIdB
    [Ev.frame CNXNb 0x01000000 0x00040000 [] true,
     Ev.frame OPENb 7 0 (shellLsB ++ [0]) true]

theorem list_eq_four (l : List Nat) (h : l.length = 4) :
    ∃ b0 b1 b2 b3, l = [b0, b1, b2, b3] := by
  cases l with
  | nil => simp at h
  | cons b0 t0 =>
  cases t0 with
  | nil => simp at h
  | cons b1 t1 =>
  cases t1 with
  | nil => simp at h
  | cons b2 t2 =>
  cases t2 with
  | nil => simp at h
  | cons b3 t3 =>
  cases t3 with
  | cons b4 t4 => simp at h
  | nil => exact ⟨b0, b1, b2, b3, rfl⟩

theorem readExactly_append (l r : List Nat) : readExactly l.length (l ++ r) = some (l, r) := by
  simp [readExactly]

theorem readExactly_all (l : List Nat) : readExactly l.length l = some (l, []) := by
  simpa using readExactly_append l []

theorem readExactly_le32 (x : Nat) (r : List Nat) :
    readExactly 4 (le32 x ++ r) = some (le32 x, r) := by
  have h : (le32 x).length = 4 := rfl
  rw [← h]
  exact readExactly_append _ _

theorem leU32_le32 (n : Nat) (h : n < 4294967296) : leU32 (le32 n) = n := by
  simp only [le32, leU32]
  omega

theorem leU32_lt (l : List Nat) (h : l.length = 4) (hb : ∀ b ∈ l, b < 256) :
    leU32 l < 4294967296 := by
  obtain ⟨b0, b1, b2, b3, rfl⟩ := list_eq_four l h
  have h0 := hb b0 (by simp)
  have h1 := hb b1 (by simp)
  have h2 := hb b2 (by simp)
  have h3 := hb b3 (by simp)
  simp only [leU32]
  omega

theorem le32_leU32 (l : List Nat) (h : l.length = 4) (hb : ∀ b ∈ l, b < 256) :
    le32 (leU32 l) = l := by
  obtain ⟨b0, b1, b2, b3, rfl⟩ := list_eq_four l h
  have h0 := hb b0 (by simp)
  have h1 := hb b1 (by simp)
  have h2 := hb b2 (by simp)
  have h3 := hb b3 (by simp)
  simp only [le32, leU32, List.cons.injEq, and_true]
  omega

/-- C7: encode-then-decode is the identity. For any 4-byte command tag, any
pair of u32 arguments and any payload of length at most MAX_PAYLOAD
(262144), recv_cmd applied to the bytes produced by send_cmd yields exactly
the original tag, arguments and payload (and consumes the whole stream). -/
theorem C7_roundtrip (cmd : List Nat) (a0 a1 : Nat) (data : List Nat)
    (hc : cmd.length = 4) (hb : ∀ b ∈ cmd, b < 256)
    (h0 : a0 < 4294967296) (h1 : a1 < 4294967296)
    (hd : data.length ≤ MAX_PAYLOAD) :
    recv_cmd (send_cmd cmd a0 a1 data) = some ((cmd, a0, a1, data), []) := by
  have hlt : leU32 cmd < 4294967296 := leU32_lt cmd hc hb
  have hxlt : leU32 cmd ^^^ 0xFFFFFFFF < 4294967296 := by
    have h2 : (4294967296 : Nat) = 2 ^ 32 := by norm_num
    rw [h2] at hlt ⊢
    exact Nat.xor_lt_two_pow hlt (by norm_num)
  have hdl : data.length < 4294967296 := by
    unfold MAX_PAYLOAD at hd
    omega
  simp only [send_cmd, recv_cmd, List.append_assoc, readExactly_le32]
  rw [leU32_le32 _ hlt, leU32_le32 _ hxlt, Nat.xor_cancel_right, if_pos rfl,
    leU32_le32 _ hdl, readExactly_all]
  rw [le32_leU32 cmd hc hb, leU32_le32 a0 h0, leU32_le32 a1 h1]

/-- C7 witness: the roundtrip at a concrete frame, tag "OKAY", arguments 1
and 2, payload the two bytes "hi". -/
theorem C7_roundtrip_witness :
    ([79, 75, 65, 89] : List Nat).length = 4 ∧
    (∀ b ∈ ([79, 75, 65, 89] : List Nat), b < 256) ∧
    (1 : Nat) < 4294967296 ∧ (2 : Nat) < 4294967296 ∧
    ([104, 105] : List Nat).length ≤ MAX_PAYLOAD ∧
    recv_cmd (send_cmd [79, 75, 65, 89] 1 2 [104, 105]) =
      some (([79, 75, 65, 89], 1, 2, [104, 105]), []) :=
  ⟨by decide, by decide, by decide, by decide, by decide,
    C7_roundtrip [79, 75, 65, 89] 1 2 [104, 105]
      (by decide) (by decide) (by decide) (by decide) (by decide)⟩

theorem phaseRead_shape (inp dest : List Nat) :
    phaseRead inp dest = Except.error OErr.ioErr ∨
    phaseRead inp dest = Except.error (OErr.failedToOpen dest) ∨
    ∃ r, phaseRead inp dest = Except.ok r := by
  unfold phaseRead
  cases readExactly 4 inp with
  | none => left; rfl
  | some p =>
    obtain ⟨status, rest⟩ := p
    by_cases h : status = OKAYb
    · right; right; exact ⟨rest, by simp [h]⟩
    · right; left; simp [h]

/-- C6 (code bug): when the host ADB server answers a request with a
non-OKAY status, open_client_stream does read the 4-hex-digit length and
that many diagnostic bytes and does close the connection, but the exception
it raises carries neither the phase nor the diagnostic: the raise on line
114 that would carry the message is intercepted by the function's own bare
except on line 115, which re-raises a generic error naming only the
destination. First conjunct: at the concrete reply FAIL, length 0004,
message "oops", the result is the generic failedToOpen error. Second
conjunct: no input whatsoever can make the result carry the diagnostic. -/
theorem C6_diag_lost :
    open_client_stream
      [70, 65, 73, 76, 48, 48, 48, 52, 111, 111, 112, 115] devIdB shellLsB =
      Except.error (OErr.failedToOpen shellLsB) ∧
    ∀ inp devId dest, carriesDiag (open_client_stream inp devId dest) = false := by
  constructor
  · rfl
  · intro inp devId dest
    unfold open_client_stream
    rcases phaseRead_shape inp dest with h | h | ⟨r, h⟩ <;> simp only [h]
    · rfl
    · rfl
    · rcases phaseRead_shape r dest with h2 | h2 | ⟨r2, h2⟩ <;> simp only [h2] <;> rfl

theorem chanInv_init (name : List Nat) : chanInv (channelInit name) := by
  simp [chanInv, channelInit, hold, cBit]

theorem chanInv_step (s : ChannelSt) (a : ChanAct) (s' : ChannelSt)
    (hinv : chanInv s) (h : channelStep s a = some s') : chanInv s' := by
  obtain ⟨h1, h2⟩ := hinv
  cases a <;> simp only [channelStep, doFinallyClose] at h
  case acquire =>
    split at h
    · next hc =>
      obtain ⟨hp, hcl, hcr⟩ := hc
      injection h with h
      subst h
      simp_all [chanInv, hold, cBit] <;> omega
    · exact Option.noConfusion h
  case acquireClosed =>
    split at h
    · next hc =>
      obtain ⟨hp, hcl, hcr⟩ := hc
      injection h with h
      subst h
      simp_all [chanInv, hold, cBit] <;> omega
    · exact Option.noConfusion h
  case exitTop =>
    split at h
    · next hc =>
      obtain ⟨hp, hcl⟩ := hc
      injection h with h
      subst h
      simp_all [chanInv, hold, cBit] <;> omega
    · exact Option.noConfusion h
  case readData =>
    split at h
    · next hp =>
      injection h with h
      subst h
      cases hcl : s.closed <;> simp_all [chanInv, hold, cBit] <;> omega
    · exact Option.noConfusion h
  case readEofShell =>
    split at h
    · next hc =>
      obtain ⟨hp, hsh⟩ := hc
      injection h with h
      subst h
      cases hcl : s.closed <;> simp_all [chanInv, hold, cBit] <;> omega
    · exact Option.noConfusion h
  case readEofOther =>
    split at h
    · next hc =>
      obtain ⟨hp, hsh⟩ := hc
      split at h <;> injection h with h <;> subst h <;>
        simp_all [chanInv, hold, cBit] <;> omega
    · exact Option.noConfusion h
  case readErr =>
    split at h
    · next hp =>
      split at h <;> injection h with h <;> subst h <;>
        simp_all [chanInv, hold, cBit] <;> omega
    · exact Option.noConfusion h
  case inOkay =>
    injection h with h
    subst h
    cases hp : s.pump <;> cases hcl : s.closed <;>
      simp_all [chanInv, hold, cBit] <;> omega
  case close =>
    split at h
    · next hcl =>
      injection h with h
      subst h
      cases hp : s.pump <;> simp_all [chanInv, hold, cBit] <;> omega
    · exact Option.noConfusion h
  case cancelled =>
    split at h
    · next hc =>
      obtain ⟨hcl, hp⟩ := hc
      injection h with h
      subst h
      cases hpm : s.pump <;> simp_all [chanInv, hold, cBit] <;> omega
    · exact Option.noConfusion h

theorem channelRun_inv (acts : List ChanAct) :
    ∀ s s', chanInv s → channelRun s acts = some s' → chanInv s' := by
  induction acts with
  | nil =>
    intro s s' h1 h2
    simp only [channelRun, Option.some.injEq] at h2
    subst h2
    exact h1
  | cons a rest ih =>
    intro s s' h1 h2
    simp only [channelRun] at h2
    cases hst : channelStep s a with
    | none => rw [hst] at h2; exact Option.noConfusion h2
    | some s1 =>
      rw [hst] at h2
      exact ih s1 s' (chanInv_step s a s1 h1 hst) h2

/-- C1 (amended): in every execution of a ProxyChannel, at most one emitted
WRTE is unacknowledged: the number of WRTE frames the sink has sent never
exceeds the number of inbound OKAYs processed for the stream plus the one
starter credit, so the first WRTE rides the starter credit and each further
WRTE is preceded by one inbound OKAY for the stream's remote_id. The
ready_to_send semaphore never exceeds what construction, inbound OKAYs and
the single extra release performed by close() (cBit) have released — the
amendment adds close()'s release, which the original claim omitted. -/
theorem C1_flow_control (name : List Nat) (acts : List ChanAct) (s : ChannelSt)
    (h : channelRun (channelInit name) acts = some s) :
    s.sent ≤ s.okays + 1 ∧ s.credit ≤ 1 + s.okays + cBit s := by
  obtain ⟨h1, h2⟩ := channelRun_inv acts (channelInit name) s (chanInv_init name) h
  cases hcm : s.closed
  · simp only [cBit, hcm] at h1 ⊢
    cases hpm : s.pump <;> simp_all [hold] <;> omega
  · simp only [cBit, hcm] at h1 h2 ⊢
    cases hpm : s.pump <;> simp_all [hold] <;> omega

/-- C1 witness: the bound evaluated after the trace acquire-then-WRTE on a
fresh shell:ls channel (one WRTE sent, zero OKAYs, no close). -/
theorem C1_flow_control_witness :
    ({ name := shellLsB, closed := false, credit := 0, pump := Pump.waiting,
       sent := 1, okays := 0, clse := 0, slept := 0 } : ChannelSt).sent ≤
      ({ name := shellLsB, closed := false, credit := 0, pump := Pump.waiting,
         sent := 1, okays := 0, clse := 0, slept := 0 } : ChannelSt).okays + 1 ∧
    ({ name := shellLsB, closed := false, credit := 0, pump := Pump.waiting,
       sent := 1, okays := 0, clse := 0, slept := 0 } : ChannelSt).credit ≤
      1 + ({ name := shellLsB, closed := false, credit := 0, pump := Pump.waiting,
             sent := 1, okays := 0, clse := 0, slept := 0 } : ChannelSt).okays +
        cBit { name := shellLsB, closed := false, credit := 0, pump := Pump.waiting,
               sent := 1, okays := 0, clse := 0, slept := 0 } :=
  C1_flow_control shellLsB [ChanAct.acquire, ChanAct.readData] _ (by decide)

/-- C1 counterexample: channel.close() (here reached by an inbound CLSE
before the sink ever runs, exactly as in AdbDeviceProxy.run lines 186-191)
performs its own ready_to_send.release() (server.py line 87), so the credit
semaphore reaches 2 although construction plus the zero inbound OKAYs
released only 1 — the claim's accounting of the semaphore is false. -/
theorem C1_counterexample :
    channelRun (channelInit shellLsB) [ChanAct.close] =
      some { name := shellLsB, closed := true, credit := 2, pump := Pump.waiting,
             sent := 0, okays := 0, clse := 1, slept := 0 } ∧
    ¬({ name := shellLsB, closed := true, credit := 2, pump := Pump.waiting,
        sent := 0, okays := 0, clse := 1, slept := 0 } : ChannelSt).credit ≤
      1 + ({ name := shellLsB, closed := true, credit := 2, pump := Pump.waiting,
             sent := 0, okays := 0, clse := 1, slept := 0 } : ChannelSt).okays := by
  refine ⟨by decide, by decide⟩

/-- C2 counterexample: on a shell:ls channel whose starter credit was spent
by the read that returned EOF, the sink sleeps and continues — but the
continue lands on the acquire at the top of the while loop: with the
semaphore at 0 the next read is not enabled (third trace) and the acquire
itself blocks (second trace), so the pump does not resume reading without
consuming a further unit of send_credit as the claim states. -/
theorem C2_counterexample :
    channelRun (channelInit shellLsB) [ChanAct.acquire, ChanAct.readEofShell] =
      some { name := shellLsB, closed := false, credit := 0, pump := Pump.waiting,
             sent := 0, okays := 0, clse := 0, slept := 1 } ∧
    channelRun (channelInit shellLsB)
      [ChanAct.acquire, ChanAct.readEofShell, ChanAct.acquire] = none ∧
    channelRun (channelInit shellLsB)
      [ChanAct.acquire, ChanAct.readEofShell, ChanAct.readData] = none := by
  refine ⟨by decide, by decide, by decide⟩

/-- C2 (amended): on reading 0 bytes on a stream whose name starts with
"shell:", the pump sleeps about 100 ms and continues the loop without
closing the stream and without emitting any WRTE or CLSE (first conjunct:
only slept changes and the pump returns to the top of the loop); but the
resumed read is reached only through the loop-top acquire, which consumes
one unit of send_credit (second conjunct: the only transition that brings
the pump to the reading position is acquire, and it decrements the
semaphore, which must be positive). -/
theorem C2_shell_eof :
    (∀ s : ChannelSt, s.pump = Pump.ready → bytesStartsWith shellB s.name = true →
      channelStep s ChanAct.readEofShell =
        some { s with slept := s.slept + 1, pump := Pump.waiting }) ∧
    (∀ (s : ChannelSt) (a : ChanAct) (s' : ChannelSt),
      channelStep s a = some s' → ¬s.pump = Pump.ready → s'.pump = Pump.ready →
      a = ChanAct.acquire ∧ s.credit = s'.credit + 1 ∧ 0 < s.credit) := by
  constructor
  · intro s hp hsh
    simp [channelStep, hp, hsh]
  · intro s a s' h hnp hp'
    cases a <;> simp only [channelStep, doFinallyClose] at h
    case acquire =>
      split at h
      · next hc =>
        injection h with h
        subst h
        have hcr := hc.2.2
        refine ⟨rfl, ?_, hcr⟩
        show s.credit = s.credit - 1 + 1
        omega
      · exact Option.noConfusion h
    case acquireClosed =>
      split at h
      · injection h with h; subst h; simp at hp'
      · exact Option.noConfusion h
    case exitTop =>
      split at h
      · injection h with h; subst h; simp at hp'
      · exact Option.noConfusion h
    case readData =>
      split at h
      · next hp => exact absurd hp hnp
      · exact Option.noConfusion h
    case readEofShell =>
      split at h
      · next hc => exact absurd hc.1 hnp
      · exact Option.noConfusion h
    case readEofOther =>
      split at h
      · next hc => exact absurd hc.1 hnp
      · exact Option.noConfusion h
    case readErr =>
      split at h
      · next hp => exact absurd hp hnp
      · exact Option.noConfusion h
    case inOkay =>
      injection h with h
      subst h
      simp at hp'
      exact absurd hp' hnp
    case close =>
      split at h
      · injection h with h
        subst h
        simp at hp'
        exact absurd hp' hnp
      · exact Option.noConfusion h
    case cancelled =>
      split at h
      · injection h with h; subst h; simp at hp'
      · exact Option.noConfusion h

/-- C2 witness: the shell-EOF step evaluated on a concrete ready shell:ls
channel, and the acquire consequence evaluated on the concrete acquire step
out of the waiting state with one credit. -/
theorem C2_shell_eof_witness :
    channelStep { name := shellLsB, closed := false, credit := 0, pump := Pump.ready,
                  sent := 0, okays := 0, clse := 0, slept := 0 } ChanAct.readEofShell =
      some { name := shellLsB, closed := false, credit := 0, pump := Pump.waiting,
             sent := 0, okays := 0, clse := 0, slept := 1 } ∧
    (ChanAct.acquire = ChanAct.acquire ∧ (1 : Nat) = 0 + 1 ∧ (0 : Nat) < 1) :=
  ⟨C2_shell_eof.1 _ rfl rfl,
    C2_shell_eof.2 (channelInit shellLsB) ChanAct.acquire
      { name := shellLsB, closed := false, credit := 0, pump := Pump.ready,
        sent := 0, okays := 0, clse := 0, slept := 0 }
      (by decide) (by decide) rfl⟩

/-- C5 counterexample: on an open channel whose peer-link send of the final
CLSE frame fails, close() raises (the send_cmd on line 95 sits outside the
try/except of lines 90-94), refuting the claim that every error during the
close sequence is swallowed and close always completes without raising. -/
theorem C5_counterexample :
    closeChannel 1 7
      { closed := false, credit := 0, sinkDone := false,
        sinkCancelled := false, writerClosed := false }
      { writerCloseFails := false, sendClseFails := true } =
      ({ closed := true, credit := 1, sinkDone := false,
         sinkCancelled := true, writerClosed := true }, [], some CloseErr.sendErr) := by
  decide

/-- C5 (amended): close() is idempotent — on an already-closed channel it
changes nothing, emits nothing and never raises (first conjunct); errors
from closing the outbound writer are swallowed, so when the peer-link CLSE
send succeeds close completes without raising and emits exactly
CLSE(remote_id, local_id) (second conjunct); but when the CLSE send fails
the error propagates out of close, with the state already mutated and no
frame emitted (third conjunct). -/
theorem C5_close_idempotent :
    (∀ (rid lid : Nat) (s : CloseSt) (env : CloseEnv),
      closeChannel rid lid { s with closed := true } env =
        ({ s with closed := true }, [], none)) ∧
    (∀ (rid lid : Nat) (s : CloseSt) (b : Bool),
      (closeChannel rid lid { s with closed := false } ⟨b, false⟩).2.2 = none ∧
      (closeChannel rid lid { s with closed := false } ⟨b, false⟩).2.1 =
        [⟨CLSEb, rid, lid, []⟩] ∧
      (closeChannel rid lid { s with closed := false } ⟨b, false⟩).1.closed = true) ∧
    (∀ (rid lid : Nat) (s : CloseSt) (b : Bool),
      (closeChannel rid lid { s with closed := false } ⟨b, true⟩).2.2 =
        some CloseErr.sendErr ∧
      (closeChannel rid lid { s with closed := false } ⟨b, true⟩).2.1 = [] ∧
      (closeChannel rid lid { s with closed := false } ⟨b, true⟩).1.closed = true) := by
  refine ⟨?_, ?_, ?_⟩
  · intro rid lid s env
    simp [closeChannel]
  · intro rid lid s b
    simp only [closeChannel]
    split_ifs <;> simp_all
  · intro rid lid s b
    simp only [closeChannel]
    split_ifs <;> simp_all

theorem lookupS_updateS (k k' : Nat) (v : StreamEnt) (l : List (Nat × StreamEnt)) :
    lookupS k (updateS k' v l) = if k' = k then some v else lookupS k l := by
  induction l with
  | nil => simp [updateS, lookupS]
  | cons p rest ih =>
    obtain ⟨k2, v2⟩ := p
    by_cases h : k2 = k'
    · subst h
      by_cases h2 : k2 = k <;> simp [updateS, lookupS, h2]
    · by_cases h2 : k2 = k
      · subst h2
        have h3 : ¬k' = k2 := fun hh => h hh.symm
        simp [updateS, lookupS, h, h3]
      · simp [updateS, lookupS, h, h2, ih]

theorem lookupS_eraseS (k k' : Nat) (l : List (Nat × StreamEnt)) (h : ¬k' = k) :
    lookupS k (eraseS k' l) = lookupS k l := by
  induction l with
  | nil => simp [eraseS]
  | cons p rest ih =>
    obtain ⟨k2, v2⟩ := p
    by_cases h2 : k2 = k'
    · subst h2
      have h3 : ¬k2 = k := h
      simp [eraseS, lookupS, h3]
    · by_cases h3 : k2 = k
      · subst h3
        have h4 : ¬k2 = k' := fun hh => h hh.symm
        simp [eraseS, lookupS, h4]
      · simp [eraseS, lookupS, h2, h3, ih]

/-- C4 counterexample: the peer opens shell:ls (remote_id 1), then sends a
WRTE whose outbound write fails; ProxyChannel.write's error path calls
close() (server.py lines 46-48), which marks the channel closed and emits
CLSE but never removes it from self.streams — the stream is closed from our
side yet still in the table, refuting the claimed iff. -/
theorem C4_counterexample :
    lookupS 1 (proxyRun proxyInit
      [Ev.frame OPENb 7 0 (shellLsB ++ [0]) true,
       Ev.frame WRTEb 7 1 [99] false]).streams =
      some { name := shellLsB, localId := 7, closed := true, pumpCancelled := true } := by
  decide

/-- C4 (amended): a stream's entry leaves the table only when the dispatch
loop processes an inbound CLSE frame addressed to its remote_id (the del on
server.py line 191); a stream closed from our side (pump EOF or write
failure) stays in the table marked closed, so table membership does not
imply not-yet-closed. Formally: if a remote_id was present before a step
and absent after it, the step's frame was a CLSE with arg1 equal to that
remote_id. -/
theorem C4_removal_only_on_clse (s : PSt) (cmd : List Nat) (a0 a1 : Nat)
    (data : List Nat) (env : Bool) (rid : Nat)
    (hpre : ¬lookupS rid s.streams = none)
    (hpost : lookupS rid (proxyStep s (Ev.frame cmd a0 a1 data env)).streams = none) :
    cmd = CLSEb ∧ a1 = rid := by
  by_cases h1 : cmd = OPENb
  · exfalso
    simp only [proxyStep] at hpost
    rw [if_pos h1] at hpost
    cases env <;> simp only [Bool.false_eq_true, if_false, if_true] at hpost
    · exact hpre hpost
    · rw [lookupS_updateS] at hpost
      split at hpost
      · exact Option.noConfusion hpost
      · exact hpre hpost
  · simp only [proxyStep] at hpost
    rw [if_neg h1] at hpost
    by_cases h2 : cmd = WRTEb
    · exfalso
      rw [if_pos h2] at hpost
      cases hl : lookupS a1 s.streams with
      | none => rw [hl] at hpost; exact hpre hpost
      | some ent =>
        rw [hl] at hpost
        cases env <;> simp only [Bool.false_eq_true, if_false, if_true] at hpost
        · by_cases hc : ent.closed
          · rw [if_pos hc] at hpost; exact hpre hpost
          · rw [if_neg hc] at hpost
            simp only at hpost
            rw [lookupS_updateS] at hpost
            split at hpost
            · exact Option.noConfusion hpost
            · exact hpre hpost
        · exact hpre hpost
    · rw [if_neg h2] at hpost
      by_cases h3 : cmd = OKAYb
      · exact absurd (by rw [if_pos h3] at hpost; exact hpost) hpre
      · rw [if_neg h3] at hpost
        by_cases h4 : cmd = CLSEb
        · refine ⟨h4, ?_⟩
          by_contra hne
          rw [if_pos h4] at hpost
          cases hl : lookupS a1 s.streams with
          | none => rw [hl] at hpost; exact hpre hpost
          | some ent =>
            rw [hl] at hpost
            simp only at hpost
            rw [lookupS_eraseS _ _ _ (fun hh => hne hh)] at hpost
            by_cases hc : ent.closed
            · rw [if_pos hc] at hpost; exact hpre hpost
            · rw [if_neg hc] at hpost
              simp only at hpost
              rw [lookupS_updateS] at hpost
              split at hpost
              · exact Option.noConfusion hpost
              · exact hpre hpost
        · rw [if_neg h4] at hpost
          exact absurd hpost hpre

/-- C4 witness: the removal lemma applied at the one-stream state and a
concrete inbound CLSE for remote_id 1. -/
theorem C4_removal_only_on_clse_witness : CLSEb = CLSEb ∧ (1 : Nat) = 1 :=
  C4_removal_only_on_clse oneStreamSt CLSEb 7 1 [] true 1 (by decide) (by decide)

theorem proxyStep_ghost (s : PSt) (cmd : List Nat) (a0 a1 : Nat) (data : List Nat)
    (env : Bool) (h : ¬cmd = OPENb) :
    (proxyStep s (Ev.frame cmd a0 a1 data env)).assigned = s.assigned ∧
    (proxyStep s (Ev.frame cmd a0 a1 data env)).nextRemoteId = s.nextRemoteId := by
  simp only [proxyStep]
  rw [if_neg h]
  by_cases h2 : cmd = WRTEb
  · rw [if_pos h2]
    cases lookupS a1 s.streams with
    | none => exact ⟨rfl, rfl⟩
    | some ent =>
      cases env
      · by_cases hc : ent.closed <;> simp [hc]
      · simp
  · rw [if_neg h2]
    by_cases h3 : cmd = OKAYb
    · rw [if_pos h3]; exact ⟨rfl, rfl⟩
    · rw [if_neg h3]
      by_cases h4 : cmd = CLSEb
      · rw [if_pos h4]
        cases lookupS a1 s.streams with
        | none => exact ⟨rfl, rfl⟩
        | some ent => by_cases hc : ent.closed <;> simp [hc]
      · rw [if_neg h4]; exact ⟨rfl, rfl⟩

theorem proxyStep_open_ghost (s : PSt) (a0 a1 : Nat) (data : List Nat) (env : Bool) :
    (proxyStep s (Ev.frame OPENb a0 a1 data env)).assigned =
      s.assigned ++ [s.nextRemoteId] ∧
    (proxyStep s (Ev.frame OPENb a0 a1 data env)).nextRemoteId = s.nextRemoteId + 1 := by
  cases env <;> simp [proxyStep]

theorem proxyRun_assigned (evs : List Ev) :
    ∀ s : PSt,
      (proxyRun s evs).assigned =
        s.assigned ++ List.range' s.nextRemoteId (countOpens evs) ∧
      (proxyRun s evs).nextRemoteId = s.nextRemoteId + countOpens evs := by
  induction evs with
  | nil => intro s; simp [proxyRun, countOpens]
  | cons e rest ih =>
    intro s
    obtain ⟨cmd, a0, a1, data, env⟩ := e
    by_cases h : cmd = OPENb
    · obtain ⟨ha, hn⟩ := proxyStep_open_ghost s a0 a1 data env
      obtain ⟨ih1, ih2⟩ := ih (proxyStep s (Ev.frame cmd a0 a1 data env))
      subst h
      have hco : countOpens (Ev.frame OPENb a0 a1 data env :: rest) =
          countOpens rest + 1 := by
        simp [countOpens, Nat.add_comm]
      simp only [proxyRun] at ih1 ih2 ⊢
      rw [ih1, ih2, ha, hn, hco]
      constructor
      · rw [List.range'_succ, List.append_assoc]
        rfl
      · omega
    · obtain ⟨ha, hn⟩ := proxyStep_ghost s cmd a0 a1 data env h
      obtain ⟨ih1, ih2⟩ := ih (proxyStep s (Ev.frame cmd a0 a1 data env))
      have hco : countOpens (Ev.frame cmd a0 a1 data env :: rest) = countOpens rest := by
        simp [countOpens, h]
      simp only [proxyRun] at ih1 ih2 ⊢
      rw [ih1, ih2, ha, hn, hco]
      exact ⟨rfl, rfl⟩

/-- C8: within one device proxy, the remote ids allocated at OPEN frames
(one per OPEN, whether or not the open succeeds) form exactly the list
1, 2, ..., k for k processed OPENs: pairwise distinct, strictly increasing,
starting at 1, and never reused for the lifetime of the proxy (the
allocation on server.py lines 165-166 only ever increments next_remote_id). -/
theorem C8_remote_ids (evs : List Ev) :
    (proxyRun proxyInit evs).assigned = List.range' 1 (countOpens evs) ∧
    List.Pairwise (· < ·) (proxyRun proxyInit evs).assigned ∧
    ((proxyRun proxyInit evs).assigned).Nodup ∧
    (¬countOpens evs = 0 → ((proxyRun proxyInit evs).assigned).head? = some 1) := by
  have h0 := (proxyRun_assigned evs proxyInit).1
  have h : (proxyRun proxyInit evs).assigned = List.range' 1 (countOpens evs) := by
    rw [h0]; rfl
  refine ⟨h, ?_, ?_, ?_⟩
  · rw [h]
    exact List.pairwise_lt_range' 1 (countOpens evs)
  · rw [h]
    exact List.nodup_range' 1 (countOpens evs)
  · intro hk
    rw [h]
    cases hc : countOpens evs with
    | zero => exact absurd hc hk
    | succ k => rw [List.range'_succ]; rfl

/-- C8 witness: after one successful OPEN the allocated-id list is
range' 1 1 = [1] and its head is 1. -/
theorem C8_remote_ids_witness :
    (proxyRun proxyInit [Ev.frame OPENb 7 0 [] true]).assigned = List.range' 1 1 ∧
    ((proxyRun proxyInit [Ev.frame OPENb 7 0 [] true]).assigned).head? = some 1 :=
  ⟨(C8_remote_ids [Ev.frame OPENb 7 0 [] true]).1,
    (C8_remote_ids [Ev.frame OPENb 7 0 [] true]).2.2.2 (by decide)⟩

/-- C9: on an OPEN frame with peer id a0 whose outbound service connection
fails, the dispatch loop emits CLSE(a0, 0) — the peer's id in the first
slot and zero in the second, not our id — leaves the stream table unchanged
(the resulting state differs only in nextRemoteId, the ghost assigned list
and the emitted frames), still advances next_remote_id by one, and
continues its dispatch loop: running any further events proceeds from the
stepped state (server.py lines 163-176). -/
theorem C9_open_reject (s : PSt) (a0 : Nat) (data : List Nat) :
    proxyStep s (Ev.frame OPENb a0 0 data false) =
      { s with nextRemoteId := s.nextRemoteId + 1,
               assigned := s.assigned ++ [s.nextRemoteId],
               out := s.out ++ [⟨CLSEb, a0, 0, []⟩] } ∧
    (proxyStep s (Ev.frame OPENb a0 0 data false)).streams = s.streams ∧
    ∀ rest, proxyRun s (Ev.frame OPENb a0 0 data false :: rest) =
      proxyRun (proxyStep s (Ev.frame OPENb a0 0 data false)) rest :=
  ⟨rfl, rfl, fun _ => rfl⟩

/-- C10: an inbound frame whose well-formed header (recv_cmd already checked
the magic) carries a tag other than OPEN, WRTE, OKAY and CLSE falls through
every branch of the dispatch loop (server.py lines 163-195 have no else
arm): no frame is emitted, no error is raised, and the whole proxy state —
stream table, next_remote_id, emitted output — is unchanged. -/
theorem C10_unknown_ignored (s : PSt) (cmd : List Nat) (a0 a1 : Nat)
    (data : List Nat) (env : Bool)
    (h1 : ¬cmd = OPENb) (h2 : ¬cmd = WRTEb) (h3 : ¬cmd = OKAYb) (h4 : ¬cmd = CLSEb) :
    proxyStep s (Ev.frame cmd a0 a1 data env) = s := by
  simp only [proxyStep]
  rw [if_neg h1, if_neg h2, if_neg h3, if_neg h4]

/-- C10 witness: a second CNXN, arriving after the handshake at a state with
one open stream, is silently ignored. -/
theorem C10_unknown_ignored_witness :
    proxyStep oneStreamSt (Ev.frame CNXNb 0x01000000 0x00040000 [] true) = oneStreamSt :=
  C10_unknown_ignored oneStreamSt CNXNb 0x01000000 0x00040000 [] true
    (by decide) (by decide) (by decide) (by decide)

/-- C3 (code bug evidence): a peer that completes the CNXN handshake, opens
shell:ls successfully (remote_id 1) and then disconnects leaves
handle_connection's termination path with: the stream still in the table,
neither closed nor its pump cancelled, no CLSE ever emitted on the peer
link — only the peer writer is closed (server.py lines 197-204 have no
stream cleanup). The claim that termination closes every stream, emits its
CLSE and cancels every pump before returning is false on this execution. -/
theorem C3_termination_leak :
    lookupS 1 termExample.streams =
      some { name := shellLsB, localId := 7, closed := false, pumpCancelled := false } ∧
    termExample.peerClosed = true ∧
    termExample.out.any (fun f => f.cmd == CLSEb) = false := by
  refine ⟨by decide, by decide, by decide⟩
